import Mathlib

/-!
# MuudHealth: verification of the dual-mode data access layer

Shallow embedding of the MuudHealth wellness app:
* the backend domain service (backend/server.js): validation schemas and the
  five CRUD route handlers over the two relational tables, and
* the client data access layer (the backend-connection revision of
  src/services/api.js): remote attempt via a timeout-bounded fetch wrapper
  with local-store fallback, and the AsyncStorage-backed local store
  (src/utils/storage.js).

Pure data is embedded directly; the network is modelled by passing the
remote outcome of the single fetch a data-access operation performs as an
explicit argument; AsyncStorage is modelled as an explicit store record
threaded through each operation.  Machine-level JS numbers are modelled as
Int (ids, timestamps, ratings all stay far below 2^53, where JS integer
arithmetic is exact).  JS strings are Lean Strings; localeCompare ordering
is modelled as code-unit lexicographic order.
-/

namespace MuudHealth

/-- A JS number as it occurs in the embedded code: an exact integer or NaN
(the possible results of parseInt). -/
inductive JsNum where
  | int (n : Int)
  | nan
deriving DecidableEq, Repr

/-- A JS value in an id position or a JSON body: number or string. -/
inductive JsVal where
  | num (n : JsNum)
  | str (s : String)
deriving DecidableEq, Repr

/-- JS String(x) conversion for the values the embedded code converts:
integers print in decimal, NaN prints as NaN, strings are unchanged. -/
def JsVal.toJs : JsVal → String
  | .num (.int n) => toString n
  | .num .nan => "NaN"
  | .str s => s

/-- Decimal value of a list of digit characters. -/
def digitsToNat (ds : List Char) : Nat :=
  ds.foldl (fun a c => 10 * a + (c.toNat - 48)) 0

/-- JS parseInt(s) in base 10: skip leading whitespace, optional sign,
then the longest prefix of decimal digits; NaN when there is none. -/
def jsParseInt (s : String) : JsNum :=
  let l := s.data.dropWhile (fun c => c = ' ' || c = '\t' || c = '\n' || c = '\r')
  match l with
  | '-' :: rest =>
      let ds := rest.takeWhile Char.isDigit
      if ds.isEmpty then .nan else .int (-(digitsToNat ds : Int))
  | '+' :: rest =>
      let ds := rest.takeWhile Char.isDigit
      if ds.isEmpty then .nan else .int (digitsToNat ds)
  | _ =>
      let ds := l.takeWhile Char.isDigit
      if ds.isEmpty then .nan else .int (digitsToNat ds)

/-- JS String.prototype.toLowerCase restricted to the ASCII range the app
stores (email addresses). -/
def lowerStr (s : String) : String :=
  ⟨s.data.map Char.toLower⟩

/-- Split a character list on a separator character (String.split model;
structural so that concrete instances evaluate). -/
def splitOnChar (c : Char) : List Char → List (List Char)
  | [] => [[]]
  | x :: xs =>
      match splitOnChar c xs with
      | h :: t => if x = c then [] :: h :: t else (x :: h) :: t
      | [] => if x = c then [[], []] else [[x]]

/-- Model of the Joi email() validation used by contactSchema: one @ sign
separating a non-empty local part from a domain of at least two non-empty
dot-separated labels (Joi's default minDomainSegments). -/
def emailOk (s : String) : Bool :=
  match splitOnChar '@' s.data with
  | [locPart, domain] =>
      let labels := splitOnChar '.' domain
      !locPart.isEmpty && labels.length ≥ 2 && labels.all (fun l => !l.isEmpty)
  | _ => false

/-- Code-unit lexicographic string order, the model of the
a.contact_name.localeCompare(b.contact_name) comparator. -/
def lexLe : List Char → List Char → Bool
  | [], _ => true
  | _ :: _, [] => false
  | a :: as, b :: bs =>
      if a.toNat < b.toNat then true
      else if b.toNat < a.toNat then false
      else lexLe as bs

/-- Name ordering on strings used when the local store re-sorts contacts. -/
def nameLe (a b : String) : Bool :=
  lexLe a.data b.data

theorem lexLe_total : ∀ a b : List Char, lexLe a b = true ∨ lexLe b a = true := by
  intro a
  induction a with
  | nil => intro b; left; rfl
  | cons x xs ih =>
      intro b
      cases b with
      | nil => right; rfl
      | cons y ys =>
          rcases Nat.lt_trichotomy x.toNat y.toNat with h | h | h
          · left; simp [lexLe, h]
          · rcases ih ys with h2 | h2
            · left; simp [lexLe, h, h2]
            · right; simp [lexLe, h, h2]
          · right; simp [lexLe, h]

theorem lexLe_trans : ∀ a b c : List Char,
    lexLe a b = true → lexLe b c = true → lexLe a c = true := by
  intro a
  induction a with
  | nil => intro b c _ _; rfl
  | cons x xs ih =>
      intro b c hab hbc
      cases b with
      | nil => simp [lexLe] at hab
      | cons y ys =>
          cases c with
          | nil => simp [lexLe] at hbc
          | cons z zs =>
              simp only [lexLe] at hab hbc ⊢
              by_cases hxy : x.toNat < y.toNat
              · by_cases hyz : y.toNat < z.toNat
                · simp [Nat.lt_trans hxy hyz]
                · simp [hxy] at hab
                  by_cases hzy : z.toNat < y.toNat
                  · simp [hyz, hzy] at hbc
                  · have : y.toNat = z.toNat := Nat.le_antisymm (Nat.le_of_not_lt hzy) (Nat.le_of_not_lt hyz)
                    simp [this ▸ hxy]
              · by_cases hyx : y.toNat < x.toNat
                · simp [hxy, hyx] at hab
                · have hxyeq : x.toNat = y.toNat := Nat.le_antisymm (Nat.le_of_not_lt hyx) (Nat.le_of_not_lt hxy)
                  simp [hxy, hyx] at hab
                  by_cases hyz : y.toNat < z.toNat
                  · simp [hxyeq ▸ hyz]
                  · by_cases hzy : z.toNat < y.toNat
                    · simp [hyz, hzy] at hbc
                    · simp [hyz, hzy] at hbc
                      simp [hxyeq ▸ hyz, hxyeq ▸ hzy, ih ys zs hab hbc]

/-! ## Domain service (backend/server.js) -/

/-- A row of the journal_entries table. -/
structure SJournal where
  id : Int
  user_id : Int
  entry_text : String
  mood_rating : Int
  timestamp : Int
deriving DecidableEq, Repr

/-- A row of the contacts table (contact_email is stored as inserted by the
POST /contacts/add handler, i.e. lower-cased). -/
structure SContact where
  id : Int
  user_id : Int
  contact_name : String
  contact_email : String
  created_at : Int
deriving DecidableEq, Repr

/-- The relational store owned by the domain service, with the SERIAL
sequences of the two tables. -/
structure ServerDB where
  journal : List SJournal
  contacts : List SContact
  nextJournalId : Int
  nextContactId : Int
deriving DecidableEq, Repr

/-- The POST /journal/entry request body after JSON parsing (user_id,
mood_rating integers and entry_text string as required by the schema types;
the claims under verification concern range and emptiness, which Joi checks
beyond typing). -/
structure JEntryReq where
  user_id : Int
  entry_text : String
  mood_rating : Int
  timestamp : Option Int
deriving DecidableEq, Repr

/-- journalEntrySchema.validate: first offending field in schema key order
(Joi defaults to abortEarly): entry_text must be non-empty, mood_rating an
integer in [1,5]; timestamp is optional. -/
def journalEntrySchemaCheck (r : JEntryReq) : Option String :=
  if r.entry_text = "" then some "entry_text"
  else if r.mood_rating < 1 || r.mood_rating > 5 then some "mood_rating"
  else none

/-- Response of POST /journal/entry. -/
structure JEntryResp where
  status : Nat
  success : Bool
  message : String
  details : Option String
  entry_id : Option Int
  timestamp : Option Int
deriving DecidableEq, Repr

/-- POST /journal/entry handler: validate, then insert with the caller
timestamp or now, returning the SERIAL id. -/
def postJournalEntry (db : ServerDB) (r : JEntryReq) (now : Int) : ServerDB × JEntryResp :=
  match journalEntrySchemaCheck r with
  | some f => (db, ⟨400, false, "Validation error", some f, none, none⟩)
  | none =>
      let ts := r.timestamp.getD now
      let row : SJournal := ⟨db.nextJournalId, r.user_id, r.entry_text, r.mood_rating, ts⟩
      ({ db with journal := db.journal ++ [row], nextJournalId := db.nextJournalId + 1 },
       ⟨201, true, "Journal entry created successfully", none, some db.nextJournalId, some ts⟩)

/-- ORDER BY timestamp DESC comparison on journal rows. -/
def tsDesc (a b : SJournal) : Prop :=
  b.timestamp ≤ a.timestamp

instance : DecidableRel tsDesc :=
  fun a b => inferInstanceAs (Decidable (b.timestamp ≤ a.timestamp))

instance : IsTotal SJournal tsDesc :=
  ⟨fun a b => le_total b.timestamp a.timestamp⟩

instance : IsTrans SJournal tsDesc :=
  ⟨fun _ _ _ h1 h2 => le_trans h2 h1⟩

/-- An entry as served by GET /journal/user/:id (the SELECT projects away
user_id). -/
structure ServedEntry where
  id : Int
  entry_text : String
  mood_rating : Int
  timestamp : Int
deriving DecidableEq, Repr

/-- Projection of a row onto the served columns. -/
def serveEntry (e : SJournal) : ServedEntry :=
  ⟨e.id, e.entry_text, e.mood_rating, e.timestamp⟩

/-- Response of GET /journal/user/:id. -/
structure ListEntriesResp where
  status : Nat
  success : Bool
  entries : List ServedEntry
deriving DecidableEq, Repr

/-- GET /journal/user/:id handler: parseInt the path parameter, reject NaN,
otherwise select the user rows ordered by timestamp descending. -/
def getJournalUser (db : ServerDB) (idParam : String) : ListEntriesResp :=
  match jsParseInt idParam with
  | .nan => ⟨400, false, []⟩
  | .int uid =>
      let rows := List.insertionSort tsDesc (db.journal.filter (fun e => e.user_id == uid))
      ⟨200, true, rows.map serveEntry⟩

/-- Response of DELETE /journal/entry/:id. -/
structure SimpleResp where
  status : Nat
  success : Bool
  message : String
deriving DecidableEq, Repr

/-- DELETE /journal/entry/:id handler: parseInt the path parameter, reject
NaN with 400; 404 when the DELETE matched no row; otherwise remove the row
and acknowledge. -/
def deleteJournalEntryServer (db : ServerDB) (idParam : String) : ServerDB × SimpleResp :=
  match jsParseInt idParam with
  | .nan => (db, ⟨400, false, "Invalid entry ID"⟩)
  | .int eid =>
      if db.journal.any (fun e => e.id == eid) then
        ({ db with journal := db.journal.filter (fun e => !(e.id == eid)) },
         ⟨200, true, "Journal entry deleted successfully"⟩)
      else
        (db, ⟨404, false, "Journal entry not found"⟩)

/-- The POST /contacts/add request body after JSON parsing. -/
structure ContactReq where
  user_id : Int
  contact_name : String
  contact_email : String
deriving DecidableEq, Repr

/-- contactSchema.validate: first offending field in schema key order:
contact_name must be non-empty, contact_email a valid email. -/
def contactSchemaCheck (r : ContactReq) : Option String :=
  if r.contact_name = "" then some "contact_name"
  else if !emailOk r.contact_email then some "contact_email"
  else none

/-- The 409 message of the unique-constraint handler in POST /contacts/add. -/
def dupContactMessage : String :=
  "Contact with this email already exists for this user"

/-- Response of POST /contacts/add. -/
structure ContactResp where
  status : Nat
  success : Bool
  message : String
  details : Option String
  contact_id : Option Int
  created_at : Option Int
deriving DecidableEq, Repr

/-- POST /contacts/add handler: validate, lower-case the email, insert; a
violation of the UNIQUE(user_id, contact_email) constraint (error 23505)
maps to an HTTP 409 with the row untouched. -/
def postContactsAdd (db : ServerDB) (r : ContactReq) (now : Int) : ServerDB × ContactResp :=
  match contactSchemaCheck r with
  | some f => (db, ⟨400, false, "Validation error", some f, none, none⟩)
  | none =>
      let em := lowerStr r.contact_email
      if db.contacts.any (fun c => c.user_id == r.user_id && c.contact_email == em) then
        (db, ⟨409, false, dupContactMessage, none, none, none⟩)
      else
        let row : SContact := ⟨db.nextContactId, r.user_id, r.contact_name, em, now⟩
        ({ db with contacts := db.contacts ++ [row], nextContactId := db.nextContactId + 1 },
         ⟨201, true, "Contact added successfully", none, some db.nextContactId, some now⟩)

/-! ## Client data access layer (src/services/api.js, backend-connection
revision) and local store (src/utils/storage.js) -/

/-- The fixed request timeout of the fetch wrapper, in milliseconds. -/
def REQUEST_TIMEOUT : Nat := 10000

/-- Outcome of the single fetch a data-access operation performs: an HTTP
response with a parsed JSON body (success flag, message, endpoint payload),
a non-ok HTTP response carrying the error body message, expiry of the
AbortController timer, or a network error. -/
inductive Remote (α : Type) where
  | ok (success : Bool) (message : String) (data : α)
  | httpError (message : String)
  | timeout
  | networkError
deriving DecidableEq, Repr

/-- The message apiCall raises when the AbortController fires. -/
def timeoutMessage : String :=
  "Request timed out. Please check your connection."

/-- The message apiCall raises on a network error. -/
def networkErrorMessage : String :=
  "Cannot connect to server. Please ensure the backend is running on http://localhost:3000"

/-- Parsed body of an ok response as seen by the operations. -/
structure RespBody (α : Type) where
  success : Bool
  message : String
  data : α
deriving DecidableEq, Repr

/-- The apiCall fetch wrapper: returns the parsed body of an ok response
and converts every failure (non-ok status, abort, network) into a thrown
Error whose message is all that distinguishes it. -/
def apiCall {α : Type} (r : Remote α) : Except String (RespBody α) :=
  match r with
  | .ok s m d => .ok ⟨s, m, d⟩
  | .httpError m => .error m
  | .timeout => .error timeoutMessage
  | .networkError => .error networkErrorMessage

/-- The error message an operation's catch block observes for a given
remote outcome: none when the attempt succeeded (ok response with
success:true), otherwise the message of the raised Error (a success:false
body is re-thrown by the operation with the body message). -/
def failMsg {α : Type} (r : Remote α) : Option String :=
  match r with
  | .ok true _ _ => none
  | .ok false m _ => some m
  | .httpError m => some m
  | .timeout => some timeoutMessage
  | .networkError => some networkErrorMessage

/-- A journal entry as kept in the AsyncStorage-backed local store and as
returned to the UI (ids are server integers or local Date.now() strings). -/
structure ClientEntry where
  id : JsVal
  user_id : JsNum
  entry_text : String
  mood_rating : Int
  timestamp : Int
deriving DecidableEq, Repr

/-- A contact as kept in the local store and returned to the UI. -/
structure ClientContact where
  id : JsVal
  user_id : JsNum
  contact_name : String
  contact_email : String
  created_at : Int
deriving DecidableEq, Repr

/-- The persisted AsyncStorage state: the two collections and the scalar
user id, under their fixed keys (none models a key that was never set). -/
structure LocalStore where
  entries : List ClientEntry
  contacts : List ClientContact
  userId : Option String
deriving DecidableEq, Repr

/-- getUserId from storage.js: read the persisted id; when it is missing
(or falsy, i.e. the empty string) persist and return the default value 1. -/
def getUserId (st : LocalStore) : LocalStore × String :=
  match st.userId with
  | some u => if u = "" then ({ st with userId := some "1" }, "1") else (st, u)
  | none => ({ st with userId := some "1" }, "1")

/-- Payload of a local journal-entry add (the entry object the fallback
path builds: caller data plus the resolved user id). -/
structure EntryPayload where
  user_id : JsNum
  entry_text : String
  mood_rating : Int
  timestamp : Option Int
deriving DecidableEq, Repr

/-- addJournalEntry from storage.js: build the record with a Date.now()
string id and the payload timestamp (or now), unshift it onto the front of
the stored list, and return it. -/
def addJournalEntryLocal (entries : List ClientEntry) (e : EntryPayload) (now : Int) :
    List ClientEntry × ClientEntry :=
  let newEntry : ClientEntry :=
    ⟨.str (toString now), e.user_id, e.entry_text, e.mood_rating, e.timestamp.getD now⟩
  (newEntry :: entries, newEntry)

/-- deleteJournalEntry from storage.js: filter out entries whose id equals
the argument with both sides converted by String(); when nothing was
removed throw without writing the store, otherwise persist the filtered
list. -/
def deleteJournalEntryLocal (entries : List ClientEntry) (entryId : JsVal) :
    List ClientEntry × Except String Bool :=
  let updated := entries.filter (fun e => !(e.id.toJs == entryId.toJs))
  if updated.length == entries.length then
    (entries, .error ("Entry with ID " ++ entryId.toJs ++ " not found"))
  else
    (updated, .ok true)

/-- localeCompare ordering lifted to contacts, as used by the local-store
contact sort. -/
def contactNameLe (a b : ClientContact) : Prop :=
  nameLe a.contact_name b.contact_name = true

instance : DecidableRel contactNameLe :=
  fun a b => inferInstanceAs (Decidable (nameLe a.contact_name b.contact_name = true))

instance : IsTotal ClientContact contactNameLe :=
  ⟨fun a b => lexLe_total a.contact_name.data b.contact_name.data⟩

instance : IsTrans ClientContact contactNameLe :=
  ⟨fun a b c => lexLe_trans a.contact_name.data b.contact_name.data c.contact_name.data⟩

/-- Payload of a local contact add. -/
structure ContactPayload where
  user_id : JsNum
  contact_name : String
  contact_email : String
deriving DecidableEq, Repr

/-- addContact from storage.js: build the record with a Date.now() string
id and created_at now, push it, re-sort the stored list by contact_name
(stable JS sort with the localeCompare comparator), and return the new
record. -/
def addContactLocal (contacts : List ClientContact) (c : ContactPayload) (now : Int) :
    List ClientContact × ClientContact :=
  let newContact : ClientContact :=
    ⟨.str (toString now), c.user_id, c.contact_name, c.contact_email, now⟩
  (List.insertionSort contactNameLe (contacts ++ [newContact]), newContact)

/-- The remote HTTP request an operation issues: method, URL path segments,
JSON body fields. -/
structure Request where
  method : String
  path : List String
  body : List (String × JsVal)
deriving DecidableEq, Repr

/-- Whether a request carries the resolved user id: either the id value
appears as a path segment, or the body has a user_id field at all. -/
def mentionsUserId (req : Request) (uid : String) : Bool :=
  req.path.contains uid || req.body.any (fun kv => kv.1 == "user_id")

deriving instance DecidableEq for Except

/-- Result of one data-access operation: the local store after the
operation, the remote request it issued, and the value returned or error
raised to the caller. -/
structure OpResult (α : Type) where
  store : LocalStore
  request : Request
  result : Except String α
deriving DecidableEq, Repr

/-- What journalAPI.getEntries returns: the served remote entries or the
local stored list on fallback. -/
inductive EntriesResult where
  | remote (entries : List ServedEntry)
  | localFb (entries : List ClientEntry)
deriving DecidableEq, Repr

/-- journalAPI.getEntries: resolve the user id, GET /journal/user/:id; on an
ok success body return the served entries; on any failure fall back to the
local stored list. -/
def journalGetEntries (st : LocalStore) (r : Remote (List ServedEntry)) :
    OpResult EntriesResult :=
  let (st1, uid) := getUserId st
  let req : Request := ⟨"GET", ["journal", "user", uid], []⟩
  match apiCall r with
  | .ok resp =>
      if resp.success then ⟨st1, req, .ok (.remote resp.data)⟩
      else ⟨st1, req, .ok (.localFb st1.entries)⟩
  | .error _ => ⟨st1, req, .ok (.localFb st1.entries)⟩

/-- Caller payload of journalAPI.createEntry. -/
structure EntryData where
  entry_text : String
  mood_rating : Int
  timestamp : Option Int
deriving DecidableEq, Repr

/-- Payload of an ok POST /journal/entry body. -/
structure CreateEntryData where
  entry_id : Int
  timestamp : Option Int
deriving DecidableEq, Repr

/-- journalAPI.createEntry: resolve the user id, POST the payload with
parseInt(userId) and a fresh timestamp; on ok success return the
server-identified record; on any failure fall back to a local add of the
caller payload plus user id. -/
def journalCreateEntry (st : LocalStore) (ed : EntryData) (now : Int)
    (r : Remote CreateEntryData) : OpResult ClientEntry :=
  let (st1, uid) := getUserId st
  let req : Request :=
    ⟨"POST", ["journal", "entry"],
      [("user_id", .num (jsParseInt uid)), ("entry_text", .str ed.entry_text),
       ("mood_rating", .num (.int ed.mood_rating)), ("timestamp", .num (.int now))]⟩
  let fallback : OpResult ClientEntry :=
    let (es, ne) := addJournalEntryLocal st1.entries
      ⟨jsParseInt uid, ed.entry_text, ed.mood_rating, ed.timestamp⟩ now
    ⟨{ st1 with entries := es }, req, .ok ne⟩
  match apiCall r with
  | .ok resp =>
      if resp.success then
        ⟨st1, req, .ok ⟨.num (.int resp.data.entry_id), jsParseInt uid, ed.entry_text,
          ed.mood_rating, resp.data.timestamp.getD now⟩⟩
      else fallback
  | .error _ => fallback

/-- journalAPI.deleteEntry: DELETE /journal/entry/:id (no user id is
resolved or sent); on ok success return true; on any failure fall back to
the local delete. -/
def journalDeleteEntry (st : LocalStore) (entryId : JsVal) (r : Remote Unit) :
    OpResult Bool :=
  let req : Request := ⟨"DELETE", ["journal", "entry", entryId.toJs], []⟩
  let fallback : OpResult Bool :=
    let (es, res) := deleteJournalEntryLocal st.entries entryId
    ⟨{ st with entries := es }, req, res⟩
  match apiCall r with
  | .ok resp =>
      if resp.success then ⟨st, req, .ok true⟩
      else fallback
  | .error _ => fallback

/-- A contact as served by GET /contacts/user/:id (the SELECT projects away
user_id). -/
structure ServedContact where
  id : Int
  contact_name : String
  contact_email : String
  created_at : Int
deriving DecidableEq, Repr

/-- What contactsAPI.getContacts returns: remote served contacts or the
local stored list on fallback. -/
inductive ContactsResult where
  | remote (contacts : List ServedContact)
  | localFb (contacts : List ClientContact)
deriving DecidableEq, Repr

/-- contactsAPI.getContacts: resolve the user id, GET /contacts/user/:id;
on ok success return the served contacts; on any failure fall back to the
local stored list. -/
def contactsGetContacts (st : LocalStore) (r : Remote (List ServedContact)) :
    OpResult ContactsResult :=
  let (st1, uid) := getUserId st
  let req : Request := ⟨"GET", ["contacts", "user", uid], []⟩
  match apiCall r with
  | .ok resp =>
      if resp.success then ⟨st1, req, .ok (.remote resp.data)⟩
      else ⟨st1, req, .ok (.localFb st1.contacts)⟩
  | .error _ => ⟨st1, req, .ok (.localFb st1.contacts)⟩

/-- Caller payload of contactsAPI.addContact. -/
structure ContactData where
  contact_name : String
  contact_email : String
deriving DecidableEq, Repr

/-- Payload of an ok POST /contacts/add body. -/
structure AddContactData where
  contact_id : Int
  created_at : Option Int
deriving DecidableEq, Repr

/-- Whether pat occurs as a contiguous substring of the second list
(String.prototype.includes model). -/
def hasInfix (pat : List Char) : List Char → Bool
  | [] => pat.isEmpty
  | c :: t => pat.isPrefixOf (c :: t) || hasInfix pat t

/-- The duplicate test of the addContact catch block:
error.message.includes( already exists ). -/
def includesAlreadyExists (m : String) : Bool :=
  hasInfix "already exists".data m.data

/-- contactsAPI.addContact: resolve the user id, POST the payload; on ok
success return the server-identified record; on a failure whose message
reports an existing duplicate re-raise it; on any other failure fall back
to a local add. -/
def contactsAddContact (st : LocalStore) (cd : ContactData) (now : Int)
    (r : Remote AddContactData) : OpResult ClientContact :=
  let (st1, uid) := getUserId st
  let req : Request :=
    ⟨"POST", ["contacts", "add"],
      [("user_id", .num (jsParseInt uid)), ("contact_name", .str cd.contact_name),
       ("contact_email", .str cd.contact_email)]⟩
  let catchFb : String → OpResult ClientContact := fun m =>
    if includesAlreadyExists m then ⟨st1, req, .error m⟩
    else
      let (cs, nc) := addContactLocal st1.contacts
        ⟨jsParseInt uid, cd.contact_name, cd.contact_email⟩ now
      ⟨{ st1 with contacts := cs }, req, .ok nc⟩
  match apiCall r with
  | .ok resp =>
      if resp.success then
        ⟨st1, req, .ok ⟨.num (.int resp.data.contact_id), jsParseInt uid, cd.contact_name,
          cd.contact_email, resp.data.created_at.getD now⟩⟩
      else catchFb resp.message
  | .error m => catchFb m

/-! ## Theorems: C4, C6, C2 (domain service) -/

/-- C4: a create-journal-entry request whose mood_rating is an integer
outside the range 1..5 is answered with an HTTP 400 validation error that
names the offending field (mood_rating, whenever the preceding schema key
entry_text is itself valid), and the journal_entries table is left
unchanged by the request. -/
theorem c4_mood_rating_out_of_range_rejected :
    ∀ (db : ServerDB) (r : JEntryReq) (now : Int),
    r.mood_rating < 1 ∨ 5 < r.mood_rating →
    (postJournalEntry db r now).1 = db ∧
    (postJournalEntry db r now).2.status = 400 ∧
    (postJournalEntry db r now).2.success = false ∧
    (r.entry_text ≠ "" → (postJournalEntry db r now).2.details = some "mood_rating") := by
  intro db r now h
  have hm : (r.mood_rating < 1 || r.mood_rating > 5) = true := by
    rcases h with h | h
    · simp [h]
    · simp [h]
  by_cases ht : r.entry_text = ""
  · simp [postJournalEntry, journalEntrySchemaCheck, ht]
  · simp [postJournalEntry, journalEntrySchemaCheck, ht, hm]

/-- Witness for C4 at a concrete request with mood_rating 7. -/
theorem c4_mood_rating_witness :
    (postJournalEntry ⟨[], [], 1, 1⟩ ⟨1, "Test", 7, none⟩ 0).1 = ⟨[], [], 1, 1⟩ ∧
    (postJournalEntry ⟨[], [], 1, 1⟩ ⟨1, "Test", 7, none⟩ 0).2.status = 400 ∧
    (postJournalEntry ⟨[], [], 1, 1⟩ ⟨1, "Test", 7, none⟩ 0).2.success = false ∧
    (("Test" : String) ≠ "" →
      (postJournalEntry ⟨[], [], 1, 1⟩ ⟨1, "Test", 7, none⟩ 0).2.details = some "mood_rating") :=
  c4_mood_rating_out_of_range_rejected ⟨[], [], 1, 1⟩ ⟨1, "Test", 7, none⟩ 0 (Or.inr (by decide))

/-- C6: the delete-journal-entry endpoint distinguishes its three cases: a
non-numeric id parameter is a 400 validation error with the store
untouched; a numeric id matching no row is a 404 with the store untouched;
a numeric id matching a row removes exactly that row and acknowledges with
200 success:true, after which a second delete of the same id yields 404. -/
theorem c6_delete_entry_status_taxonomy :
    (∀ (db : ServerDB) (p : String), jsParseInt p = .nan →
        deleteJournalEntryServer db p = (db, ⟨400, false, "Invalid entry ID"⟩)) ∧
    (∀ (db : ServerDB) (p : String) (eid : Int), jsParseInt p = .int eid →
        db.journal.any (fun e => e.id == eid) = false →
        deleteJournalEntryServer db p = (db, ⟨404, false, "Journal entry not found"⟩)) ∧
    (∀ (db : ServerDB) (p : String) (eid : Int), jsParseInt p = .int eid →
        db.journal.any (fun e => e.id == eid) = true →
        deleteJournalEntryServer db p =
          ({ db with journal := db.journal.filter (fun e => !(e.id == eid)) },
           ⟨200, true, "Journal entry deleted successfully"⟩) ∧
        (deleteJournalEntryServer (deleteJournalEntryServer db p).1 p).2.status = 404) := by
  refine ⟨?_, ?_, ?_⟩
  · intro db p h
    simp [deleteJournalEntryServer, h]
  · intro db p eid h hn
    simp [deleteJournalEntryServer, h, hn]
  · intro db p eid h hy
    have h200 : deleteJournalEntryServer db p =
        ({ db with journal := db.journal.filter (fun e => !(e.id == eid)) },
         ⟨200, true, "Journal entry deleted successfully"⟩) := by
      simp [deleteJournalEntryServer, h, hy]
    refine ⟨h200, ?_⟩
    have hfalse : (db.journal.filter (fun e => !(e.id == eid))).any (fun e => e.id == eid) = false := by
      rw [List.any_eq_false]
      intro e he
      rw [List.mem_filter] at he
      have := he.2
      simp only [Bool.not_eq_true'] at this
      simp [this]
    rw [h200]
    simp [deleteJournalEntryServer, h, hfalse]

/-- Witness for C6 at a one-row table: delete of id 7 succeeds, a repeat
delete 404s, a non-numeric id 400s, and a missing id 404s. -/
theorem c6_delete_entry_witness :
    deleteJournalEntryServer ⟨[⟨7, 1, "t", 3, 0⟩], [], 8, 1⟩ "7" =
      ({ journal := [], contacts := [], nextJournalId := 8, nextContactId := 1 },
       ⟨200, true, "Journal entry deleted successfully"⟩) ∧
    (deleteJournalEntryServer (deleteJournalEntryServer ⟨[⟨7, 1, "t", 3, 0⟩], [], 8, 1⟩ "7").1 "7").2.status = 404 ∧
    deleteJournalEntryServer ⟨[⟨7, 1, "t", 3, 0⟩], [], 8, 1⟩ "abc" =
      (⟨[⟨7, 1, "t", 3, 0⟩], [], 8, 1⟩, ⟨400, false, "Invalid entry ID"⟩) ∧
    deleteJournalEntryServer ⟨[⟨7, 1, "t", 3, 0⟩], [], 8, 1⟩ "9" =
      (⟨[⟨7, 1, "t", 3, 0⟩], [], 8, 1⟩, ⟨404, false, "Journal entry not found"⟩) := by
  have h := c6_delete_entry_status_taxonomy
  have h1 := h.2.2 ⟨[⟨7, 1, "t", 3, 0⟩], [], 8, 1⟩ "7" 7 (by decide) (by decide)
  refine ⟨?_, h1.2, ?_, ?_⟩
  · rw [h1.1]; decide
  · exact h.1 ⟨[⟨7, 1, "t", 3, 0⟩], [], 8, 1⟩ "abc" (by decide)
  · exact h.2.1 ⟨[⟨7, 1, "t", 3, 0⟩], [], 8, 1⟩ "9" 9 (by decide) (by decide)

/-- C2: emails are lower-cased before storage and (user_id, contact_email)
is unique: when a create-contact request has been accepted (201), a second
well-formed request for the same user whose email equals the first up to
letter case is answered 409 and leaves the store exactly as it was after
the first insert. -/
theorem c2_contact_email_unique_per_user :
    ∀ (db : ServerDB) (r1 r2 : ContactReq) (now1 now2 : Int),
    (postContactsAdd db r1 now1).2.status = 201 →
    contactSchemaCheck r2 = none →
    r2.user_id = r1.user_id →
    lowerStr r2.contact_email = lowerStr r1.contact_email →
    postContactsAdd (postContactsAdd db r1 now1).1 r2 now2 =
      ((postContactsAdd db r1 now1).1,
       ⟨409, false, dupContactMessage, none, none, none⟩) := by
  intro db r1 r2 now1 now2 h201 hv2 huid hem
  cases hv1 : contactSchemaCheck r1 with
  | some f => simp [postContactsAdd, hv1] at h201
  | none =>
      by_cases hdup : db.contacts.any
          (fun c => c.user_id == r1.user_id && c.contact_email == lowerStr r1.contact_email) = true
      · simp [postContactsAdd, hv1, hdup] at h201
      · rw [Bool.not_eq_true] at hdup
        have hdb1 : (postContactsAdd db r1 now1).1 =
            { db with
              contacts := db.contacts ++ [⟨db.nextContactId, r1.user_id, r1.contact_name, lowerStr r1.contact_email, now1⟩],
              nextContactId := db.nextContactId + 1 } := by
          simp [postContactsAdd, hv1, hdup]
        rw [hdb1]
        have hany : (db.contacts ++ [(⟨db.nextContactId, r1.user_id, r1.contact_name, lowerStr r1.contact_email, now1⟩ : SContact)]).any
            (fun c => c.user_id == r2.user_id && c.contact_email == lowerStr r2.contact_email) = true := by
          simp [huid, hem]
        simp [postContactsAdd, hv2, hany]

/-- Witness for C2: adding the sample contact then re-adding it with the
email in different letter case yields 409 and an unchanged store. -/
theorem c2_contact_unique_witness :
    postContactsAdd (postContactsAdd ⟨[], [], 1, 1⟩ ⟨1, "Dr. Wilson", "Dr.Wilson@Health.com"⟩ 5).1
        ⟨1, "Dr. Wilson II", "dr.wilson@HEALTH.com"⟩ 9 =
      ((postContactsAdd ⟨[], [], 1, 1⟩ ⟨1, "Dr. Wilson", "Dr.Wilson@Health.com"⟩ 5).1,
       ⟨409, false, dupContactMessage, none, none, none⟩) :=
  c2_contact_email_unique_per_user ⟨[], [], 1, 1⟩ ⟨1, "Dr. Wilson", "Dr.Wilson@Health.com"⟩
    ⟨1, "Dr. Wilson II", "dr.wilson@HEALTH.com"⟩ 5 9 (by decide) (by decide) rfl (by decide)

/-! ## Theorems: client data access layer -/

/-- Resolving the user id never touches the stored entries. -/
theorem getUserId_store_entries (st : LocalStore) : (getUserId st).1.entries = st.entries := by
  unfold getUserId
  cases st.userId with
  | none => rfl
  | some u => by_cases h : u = "" <;> simp [h]

/-- Resolving the user id never touches the stored contacts. -/
theorem getUserId_store_contacts (st : LocalStore) : (getUserId st).1.contacts = st.contacts := by
  unfold getUserId
  cases st.userId with
  | none => rfl
  | some u => by_cases h : u = "" <;> simp [h]

/-- C1: on a failed remote create-contact whose error message reports the
contact already exists, the data access layer re-raises the error and
leaves the local contacts untouched; on any other remote failure it adds
the contact to the local store (re-sorted by name) and returns the locally
created record. -/
theorem c1_duplicate_contact_reraised :
    ∀ (st : LocalStore) (cd : ContactData) (now : Int) (r : Remote AddContactData) (m : String),
    failMsg r = some m →
    ((includesAlreadyExists m = true →
        (contactsAddContact st cd now r).result = .error m ∧
        (contactsAddContact st cd now r).store.contacts = st.contacts) ∧
     (includesAlreadyExists m = false →
        (contactsAddContact st cd now r).result =
          .ok ⟨.str (toString now), jsParseInt (getUserId st).2, cd.contact_name, cd.contact_email, now⟩ ∧
        (contactsAddContact st cd now r).store.contacts =
          List.insertionSort contactNameLe
            (st.contacts ++ [⟨.str (toString now), jsParseInt (getUserId st).2, cd.contact_name, cd.contact_email, now⟩]))) := by
  intro st cd now r m hf
  rcases hgu : getUserId st with ⟨st1, uid⟩
  have hc : st1.contacts = st.contacts := by
    have h := getUserId_store_contacts st
    rw [hgu] at h
    exact h
  constructor
  · intro hinc
    cases r with
    | ok s msg d =>
        cases s with
        | true => simp [failMsg] at hf
        | false =>
            simp only [failMsg, Option.some.injEq] at hf
            subst hf
            simp [contactsAddContact, apiCall, hgu, hinc, hc]
    | httpError msg =>
        simp only [failMsg, Option.some.injEq] at hf
        subst hf
        simp [contactsAddContact, apiCall, hgu, hinc, hc]
    | timeout =>
        simp only [failMsg, Option.some.injEq] at hf
        subst hf
        simp [contactsAddContact, apiCall, hgu, hinc, hc]
    | networkError =>
        simp only [failMsg, Option.some.injEq] at hf
        subst hf
        simp [contactsAddContact, apiCall, hgu, hinc, hc]
  · intro hinc
    cases r with
    | ok s msg d =>
        cases s with
        | true => simp [failMsg] at hf
        | false =>
            simp only [failMsg, Option.some.injEq] at hf
            subst hf
            simp [contactsAddContact, apiCall, addContactLocal, hgu, hinc, hc]
    | httpError msg =>
        simp only [failMsg, Option.some.injEq] at hf
        subst hf
        simp [contactsAddContact, apiCall, addContactLocal, hgu, hinc, hc]
    | timeout =>
        simp only [failMsg, Option.some.injEq] at hf
        subst hf
        simp [contactsAddContact, apiCall, addContactLocal, hgu, hinc, hc]
    | networkError =>
        simp only [failMsg, Option.some.injEq] at hf
        subst hf
        simp [contactsAddContact, apiCall, addContactLocal, hgu, hinc, hc]

/-- Witness for C1: the server duplicate message is re-raised with the
local contacts untouched, while a network error falls back to a local add. -/
theorem c1_duplicate_contact_witness :
    ((contactsAddContact ⟨[], [], some "1"⟩ ⟨"Dr. Wilson", "dr.wilson@health.com"⟩ 5
        (.httpError dupContactMessage)).result = .error dupContactMessage ∧
     (contactsAddContact ⟨[], [], some "1"⟩ ⟨"Dr. Wilson", "dr.wilson@health.com"⟩ 5
        (.httpError dupContactMessage)).store.contacts = []) ∧
    ((contactsAddContact ⟨[], [], some "1"⟩ ⟨"Dr. Wilson", "dr.wilson@health.com"⟩ 5
        .networkError).result =
       .ok ⟨.str "5", jsParseInt (getUserId ⟨[], [], some "1"⟩).2, "Dr. Wilson", "dr.wilson@health.com", 5⟩ ∧
     (contactsAddContact ⟨[], [], some "1"⟩ ⟨"Dr. Wilson", "dr.wilson@health.com"⟩ 5
        .networkError).store.contacts =
       List.insertionSort contactNameLe
         ([] ++ [⟨.str "5", jsParseInt (getUserId ⟨[], [], some "1"⟩).2, "Dr. Wilson", "dr.wilson@health.com", 5⟩])) := by
  constructor
  · exact (c1_duplicate_contact_reraised ⟨[], [], some "1"⟩ ⟨"Dr. Wilson", "dr.wilson@health.com"⟩ 5
      (.httpError dupContactMessage) dupContactMessage rfl).1 (by decide)
  · exact (c1_duplicate_contact_reraised ⟨[], [], some "1"⟩ ⟨"Dr. Wilson", "dr.wilson@health.com"⟩ 5
      .networkError networkErrorMessage rfl).2 (by decide)

/-- C3 counterexample: the claim that a remote validation error never
triggers the local fallback is false.  The server rejects mood_rating 7
with a 400 Validation error; feeding that non-ok response to the client
create-entry operation makes it write the invalid entry into the local
store and report success to the caller instead of the validation error. -/
theorem c3_validation_error_fallback_cex :
    (postJournalEntry ⟨[], [], 1, 1⟩ ⟨1, "hello", 7, none⟩ 11).2.status = 400 ∧
    (postJournalEntry ⟨[], [], 1, 1⟩ ⟨1, "hello", 7, none⟩ 11).2.message = "Validation error" ∧
    (journalCreateEntry ⟨[], [], some "1"⟩ ⟨"hello", 7, none⟩ 11
        (.httpError "Validation error")).store.entries =
      [⟨.str "11", .int 1, "hello", 7, 11⟩] ∧
    (journalCreateEntry ⟨[], [], some "1"⟩ ⟨"hello", 7, none⟩ 11
        (.httpError "Validation error")).result =
      .ok ⟨.str "11", .int 1, "hello", 7, 11⟩ := by
  decide

/-- C3 amended: a remote validation error does not prevent the local-store
fallback of journal-entry creation: every failed remote create-entry
attempt, a non-success validation response included, performs the local
add (writing the record into the store) and returns the locally created
record to the caller instead of reporting the validation error. -/
theorem c3_amended_every_failure_falls_back :
    ∀ (st : LocalStore) (ed : EntryData) (now : Int) (r : Remote CreateEntryData) (m : String),
    failMsg r = some m →
    (journalCreateEntry st ed now r).result =
      .ok ⟨.str (toString now), jsParseInt (getUserId st).2, ed.entry_text, ed.mood_rating, ed.timestamp.getD now⟩ ∧
    (journalCreateEntry st ed now r).store.entries =
      ⟨.str (toString now), jsParseInt (getUserId st).2, ed.entry_text, ed.mood_rating, ed.timestamp.getD now⟩ :: st.entries := by
  intro st ed now r m hf
  rcases hgu : getUserId st with ⟨st1, uid⟩
  have he : st1.entries = st.entries := by
    have h := getUserId_store_entries st
    rw [hgu] at h
    exact h
  cases r with
  | ok s msg d =>
      cases s with
      | true => simp [failMsg] at hf
      | false => simp [journalCreateEntry, apiCall, addJournalEntryLocal, hgu, he]
  | httpError msg => simp [journalCreateEntry, apiCall, addJournalEntryLocal, hgu, he]
  | timeout => simp [journalCreateEntry, apiCall, addJournalEntryLocal, hgu, he]
  | networkError => simp [journalCreateEntry, apiCall, addJournalEntryLocal, hgu, he]

/-- Witness for the amended C3 at the validation-error response. -/
theorem c3_amended_witness :
    (journalCreateEntry ⟨[], [], some "1"⟩ ⟨"hello", 7, none⟩ 11
        (.httpError "Validation error")).result =
      .ok ⟨.str (toString (11 : Int)), jsParseInt (getUserId ⟨[], [], some "1"⟩).2, "hello", 7,
        (Option.getD none 11 : Int)⟩ ∧
    (journalCreateEntry ⟨[], [], some "1"⟩ ⟨"hello", 7, none⟩ 11
        (.httpError "Validation error")).store.entries =
      [⟨.str (toString (11 : Int)), jsParseInt (getUserId ⟨[], [], some "1"⟩).2, "hello", 7,
        (Option.getD none 11 : Int)⟩] :=
  c3_amended_every_failure_falls_back ⟨[], [], some "1"⟩ ⟨"hello", 7, none⟩ 11
    (.httpError "Validation error") "Validation error" rfl

/-- C7: the fetch wrapper is bounded by the fixed 10000 ms timeout and its
expiry is not a distinct error type: it surfaces as the same thrown-Error
shape as any other failure, and every data-access operation behaves on a
timeout exactly as it behaves on a network error — falling back to the
local store. -/
theorem c7_timeout_is_generic_failure :
    REQUEST_TIMEOUT = 10000 ∧
    apiCall (.timeout : Remote Unit) = .error timeoutMessage ∧
    (∀ st : LocalStore, journalGetEntries st .timeout = journalGetEntries st .networkError) ∧
    (∀ st : LocalStore, (journalGetEntries st .timeout).result = .ok (.localFb st.entries)) ∧
    (∀ (st : LocalStore) (ed : EntryData) (now : Int),
        journalCreateEntry st ed now .timeout = journalCreateEntry st ed now .networkError) ∧
    (∀ (st : LocalStore) (eid : JsVal),
        journalDeleteEntry st eid .timeout = journalDeleteEntry st eid .networkError) ∧
    (∀ st : LocalStore, contactsGetContacts st .timeout = contactsGetContacts st .networkError) ∧
    (∀ (st : LocalStore) (cd : ContactData) (now : Int),
        contactsAddContact st cd now .timeout = contactsAddContact st cd now .networkError) := by
  have hto : includesAlreadyExists timeoutMessage = false := by decide
  have hne : includesAlreadyExists networkErrorMessage = false := by decide
  refine ⟨rfl, rfl, ?_, ?_, ?_, ?_, ?_, ?_⟩
  · intro st
    rcases hgu : getUserId st with ⟨st1, uid⟩
    simp [journalGetEntries, apiCall, hgu]
  · intro st
    rcases hgu : getUserId st with ⟨st1, uid⟩
    have h := getUserId_store_entries st
    rw [hgu] at h
    have h2 : st1.entries = st.entries := h
    simp [journalGetEntries, apiCall, hgu, h2]
  · intro st ed now
    rcases hgu : getUserId st with ⟨st1, uid⟩
    simp [journalCreateEntry, apiCall, hgu]
  · intro st eid
    simp [journalDeleteEntry, apiCall]
  · intro st
    rcases hgu : getUserId st with ⟨st1, uid⟩
    simp [contactsGetContacts, apiCall, hgu]
  · intro st cd now
    rcases hgu : getUserId st with ⟨st1, uid⟩
    simp [contactsAddContact, apiCall, hgu, hto, hne]

/-- C9: the local delete-journal-entry is atomic on error: when no stored
entry's id equals the given id under String() conversion, it raises the
not-found error and returns the stored list exactly as it was; the store
is only written (with the filtered list) when a matching entry exists. -/
theorem c9_local_delete_atomic_on_error :
    (∀ (entries : List ClientEntry) (eid : JsVal),
        (∀ e ∈ entries, e.id.toJs ≠ eid.toJs) →
        deleteJournalEntryLocal entries eid =
          (entries, .error ("Entry with ID " ++ eid.toJs ++ " not found"))) ∧
    (∀ (entries : List ClientEntry) (eid : JsVal) (e : ClientEntry),
        e ∈ entries → e.id.toJs = eid.toJs →
        deleteJournalEntryLocal entries eid =
          (entries.filter (fun x => !(x.id.toJs == eid.toJs)), .ok true)) := by
  constructor
  · intro entries eid h
    have hfil : entries.filter (fun e => !(e.id.toJs == eid.toJs)) = entries := by
      apply List.filter_eq_self.mpr
      intro a ha
      simp [h a ha]
    simp [deleteJournalEntryLocal, hfil]
  · intro entries eid e he heq
    have hnall : ¬ (∀ a ∈ entries, (fun x => !(x.id.toJs == eid.toJs)) a = true) := by
      intro hall
      have := hall e he
      simp [heq] at this
    have hne : (entries.filter (fun x => !(x.id.toJs == eid.toJs))).length ≠ entries.length := by
      rw [← List.countP_eq_length_filter]
      intro hceq
      exact hnall (List.countP_eq_length.mp hceq)
    simp only [deleteJournalEntryLocal]
    rw [if_neg]
    simp only [beq_iff_eq]
    exact hne

/-- Witness for C9: deleting id 7 from a store holding only id 100 errors
and leaves the list unchanged; deleting id 100 filters it out. -/
theorem c9_local_delete_witness :
    deleteJournalEntryLocal [⟨.str "100", .int 1, "a", 3, 100⟩] (.num (.int 7)) =
      ([⟨.str "100", .int 1, "a", 3, 100⟩], .error "Entry with ID 7 not found") ∧
    deleteJournalEntryLocal [⟨.str "100", .int 1, "a", 3, 100⟩] (.str "100") =
      ([⟨.str "100", .int 1, "a", 3, 100⟩].filter
        (fun x => !(x.id.toJs == (JsVal.str "100").toJs)), .ok true) := by
  constructor
  · exact c9_local_delete_atomic_on_error.1 [⟨.str "100", .int 1, "a", 3, 100⟩]
      (.num (.int 7)) (by decide)
  · exact c9_local_delete_atomic_on_error.2 [⟨.str "100", .int 1, "a", 3, 100⟩]
      (.str "100") ⟨.str "100", .int 1, "a", 3, 100⟩ (by simp) (by decide)

/-- The (user_id, contact_email) pair test on locally stored contacts. -/
def pairMatches (uid : JsNum) (em : String) (x : ClientContact) : Bool :=
  x.user_id == uid && x.contact_email == em

/-- C10: the local add-contact performs no uniqueness check: adding a
contact whose (user_id, contact_email) pair already occurs succeeds,
appends a second record with that pair, and returns the stored list
re-sorted by contact_name. -/
theorem c10_local_add_contact_allows_duplicates :
    ∀ (contacts : List ClientContact) (c : ContactPayload) (now : Int),
    1 ≤ contacts.countP (pairMatches c.user_id c.contact_email) →
    2 ≤ (addContactLocal contacts c now).1.countP (pairMatches c.user_id c.contact_email) ∧
    List.Sorted contactNameLe (addContactLocal contacts c now).1 ∧
    (addContactLocal contacts c now).2.user_id = c.user_id ∧
    (addContactLocal contacts c now).2.contact_email = c.contact_email := by
  intro contacts c now h
  refine ⟨?_, ?_, rfl, rfl⟩
  · have hperm := List.perm_insertionSort contactNameLe
      (contacts ++ [⟨.str (toString now), c.user_id, c.contact_name, c.contact_email, now⟩])
    have hcount := hperm.countP_eq (pairMatches c.user_id c.contact_email)
    show 2 ≤ (List.insertionSort contactNameLe
      (contacts ++ [⟨.str (toString now), c.user_id, c.contact_name, c.contact_email, now⟩])).countP
        (pairMatches c.user_id c.contact_email)
    rw [hcount, List.countP_append]
    have hone : List.countP (pairMatches c.user_id c.contact_email)
        [(⟨.str (toString now), c.user_id, c.contact_name, c.contact_email, now⟩ : ClientContact)] = 1 := by
      simp [List.countP, List.countP.go, pairMatches]
    omega
  · exact List.sorted_insertionSort contactNameLe _

/-- Witness for C10: adding a second contact with an already-present
(user_id, email) pair yields a store counting that pair twice. -/
theorem c10_local_add_contact_witness :
    1 ≤ List.countP (pairMatches (.int 1) "a@b.com")
      [(⟨.str "3", .int 1, "Zed", "a@b.com", 3⟩ : ClientContact)] ∧
    2 ≤ (addContactLocal [⟨.str "3", .int 1, "Zed", "a@b.com", 3⟩] ⟨.int 1, "Amy", "a@b.com"⟩ 9).1.countP
      (pairMatches (.int 1) "a@b.com") ∧
    List.Sorted contactNameLe
      (addContactLocal [⟨.str "3", .int 1, "Zed", "a@b.com", 3⟩] ⟨.int 1, "Amy", "a@b.com"⟩ 9).1 := by
  have h := c10_local_add_contact_allows_duplicates
    [⟨.str "3", .int 1, "Zed", "a@b.com", 3⟩] ⟨.int 1, "Amy", "a@b.com"⟩ 9 (by decide)
  exact ⟨by decide, h.1, h.2.1⟩

/-- C8 counterexample: the claim that the resolved user id is included in
every remote call and every local-store fallback is false twice over: with
the persisted user id 42, the delete-entry request is DELETE
/journal/entry/7 — no user_id body field and no 42 anywhere in the path —
and the list-entries local fallback ignores the resolved id entirely,
returning the stored entries of users 1 and 99 unfiltered. -/
theorem c8_delete_has_no_user_id_cex :
    mentionsUserId (journalDeleteEntry ⟨[], [], some "42"⟩ (.str "7") .networkError).request "42" = false ∧
    (journalDeleteEntry ⟨[], [], some "42"⟩ (.str "7") .networkError).request =
      ⟨"DELETE", ["journal", "entry", "7"], []⟩ ∧
    (journalGetEntries ⟨[⟨.str "5", .int 1, "a", 3, 5⟩, ⟨.str "6", .int 99, "b", 4, 6⟩], [], some "42"⟩
        .networkError).result =
      .ok (.localFb [⟨.str "5", .int 1, "a", 3, 5⟩, ⟨.str "6", .int 99, "b", 4, 6⟩]) := by
  decide

/-- C8 amended: the layer resolves the per-installation user id once
(persisting the default 1 on first use, returning the persisted value
thereafter), includes it in the remote calls of list-entries,
create-entry, list-contacts and add-contact, and stamps it into the record
written by the create-entry and add-contact local fallbacks; the
delete-entry operation however sends only the entry id and neither reads
nor writes the persisted user id, and the list operations' local fallbacks
return the entire stored collection without filtering by the resolved id. -/
theorem c8_amended_user_id_usage :
    (∀ (es : List ClientEntry) (cs : List ClientContact),
        getUserId ⟨es, cs, none⟩ = (⟨es, cs, some "1"⟩, "1")) ∧
    (∀ (es : List ClientEntry) (cs : List ClientContact) (u : String), u ≠ "" →
        getUserId ⟨es, cs, some u⟩ = (⟨es, cs, some u⟩, u)) ∧
    (∀ (st : LocalStore) (r : Remote (List ServedEntry)),
        (journalGetEntries st r).request = ⟨"GET", ["journal", "user", (getUserId st).2], []⟩) ∧
    (∀ (st : LocalStore) (ed : EntryData) (now : Int) (r : Remote CreateEntryData),
        (journalCreateEntry st ed now r).request =
          ⟨"POST", ["journal", "entry"],
            [("user_id", .num (jsParseInt (getUserId st).2)), ("entry_text", .str ed.entry_text),
             ("mood_rating", .num (.int ed.mood_rating)), ("timestamp", .num (.int now))]⟩) ∧
    (∀ (st : LocalStore) (r : Remote (List ServedContact)),
        (contactsGetContacts st r).request = ⟨"GET", ["contacts", "user", (getUserId st).2], []⟩) ∧
    (∀ (st : LocalStore) (cd : ContactData) (now : Int) (r : Remote AddContactData),
        (contactsAddContact st cd now r).request =
          ⟨"POST", ["contacts", "add"],
            [("user_id", .num (jsParseInt (getUserId st).2)), ("contact_name", .str cd.contact_name),
             ("contact_email", .str cd.contact_email)]⟩) ∧
    (∀ (st : LocalStore) (eid : JsVal) (r : Remote Unit),
        (journalDeleteEntry st eid r).request = ⟨"DELETE", ["journal", "entry", eid.toJs], []⟩ ∧
        (journalDeleteEntry st eid r).store.userId = st.userId) ∧
    (∀ (st : LocalStore) (ed : EntryData) (now : Int) (r : Remote CreateEntryData) (m : String),
        failMsg r = some m →
        (journalCreateEntry st ed now r).result =
          .ok ⟨.str (toString now), jsParseInt (getUserId st).2, ed.entry_text, ed.mood_rating,
            ed.timestamp.getD now⟩) ∧
    (∀ (st : LocalStore) (cd : ContactData) (now : Int) (r : Remote AddContactData) (m : String),
        failMsg r = some m → includesAlreadyExists m = false →
        (contactsAddContact st cd now r).result =
          .ok ⟨.str (toString now), jsParseInt (getUserId st).2, cd.contact_name,
            cd.contact_email, now⟩) ∧
    (∀ (st : LocalStore) (re : Remote (List ServedEntry)) (rc : Remote (List ServedContact))
        (me mc : String),
        failMsg re = some me → failMsg rc = some mc →
        (journalGetEntries st re).result = .ok (.localFb st.entries) ∧
        (contactsGetContacts st rc).result = .ok (.localFb st.contacts)) := by
  refine ⟨?_, ?_, ?_, ?_, ?_, ?_, ?_, ?_, ?_, ?_⟩
  · intro es cs; rfl
  · intro es cs u h
    simp [getUserId, h]
  · intro st r
    rcases hgu : getUserId st with ⟨st1, uid⟩
    cases r with
    | ok s msg d => cases s <;> simp [journalGetEntries, apiCall, hgu]
    | httpError msg => simp [journalGetEntries, apiCall, hgu]
    | timeout => simp [journalGetEntries, apiCall, hgu]
    | networkError => simp [journalGetEntries, apiCall, hgu]
  · intro st ed now r
    rcases hgu : getUserId st with ⟨st1, uid⟩
    cases r with
    | ok s msg d => cases s <;> simp [journalCreateEntry, apiCall, hgu]
    | httpError msg => simp [journalCreateEntry, apiCall, hgu]
    | timeout => simp [journalCreateEntry, apiCall, hgu]
    | networkError => simp [journalCreateEntry, apiCall, hgu]
  · intro st r
    rcases hgu : getUserId st with ⟨st1, uid⟩
    cases r with
    | ok s msg d => cases s <;> simp [contactsGetContacts, apiCall, hgu]
    | httpError msg => simp [contactsGetContacts, apiCall, hgu]
    | timeout => simp [contactsGetContacts, apiCall, hgu]
    | networkError => simp [contactsGetContacts, apiCall, hgu]
  · intro st cd now r
    rcases hgu : getUserId st with ⟨st1, uid⟩
    cases r with
    | ok s msg d =>
        cases s with
        | true => simp [contactsAddContact, apiCall, hgu]
        | false =>
            simp only [contactsAddContact, apiCall, hgu]
            by_cases hinc : includesAlreadyExists msg <;> simp [hinc]
    | httpError msg =>
        simp only [contactsAddContact, apiCall, hgu]
        by_cases hinc : includesAlreadyExists msg <;> simp [hinc]
    | timeout =>
        simp only [contactsAddContact, apiCall, hgu]
        by_cases hinc : includesAlreadyExists timeoutMessage <;> simp [hinc]
    | networkError =>
        simp only [contactsAddContact, apiCall, hgu]
        by_cases hinc : includesAlreadyExists networkErrorMessage <;> simp [hinc]
  · intro st eid r
    cases r with
    | ok s msg d => cases s <;> simp [journalDeleteEntry, apiCall]
    | httpError msg => simp [journalDeleteEntry, apiCall]
    | timeout => simp [journalDeleteEntry, apiCall]
    | networkError => simp [journalDeleteEntry, apiCall]
  · intro st ed now r m hf
    rcases hgu : getUserId st with ⟨st1, uid⟩
    cases r with
    | ok s msg d =>
        cases s with
        | true => simp [failMsg] at hf
        | false => simp [journalCreateEntry, apiCall, addJournalEntryLocal, hgu]
    | httpError msg => simp [journalCreateEntry, apiCall, addJournalEntryLocal, hgu]
    | timeout => simp [journalCreateEntry, apiCall, addJournalEntryLocal, hgu]
    | networkError => simp [journalCreateEntry, apiCall, addJournalEntryLocal, hgu]
  · intro st cd now r m hf hinc
    rcases hgu : getUserId st with ⟨st1, uid⟩
    cases r with
    | ok s msg d =>
        cases s with
        | true => simp [failMsg] at hf
        | false =>
            simp only [failMsg, Option.some.injEq] at hf
            subst hf
            simp [contactsAddContact, apiCall, addContactLocal, hgu, hinc]
    | httpError msg =>
        simp only [failMsg, Option.some.injEq] at hf
        subst hf
        simp [contactsAddContact, apiCall, addContactLocal, hgu, hinc]
    | timeout =>
        simp only [failMsg, Option.some.injEq] at hf
        subst hf
        simp [contactsAddContact, apiCall, addContactLocal, hgu, hinc]
    | networkError =>
        simp only [failMsg, Option.some.injEq] at hf
        subst hf
        simp [contactsAddContact, apiCall, addContactLocal, hgu, hinc]
  · intro st re rc me mc hfe hfc
    constructor
    · rcases hgu : getUserId st with ⟨st1, uid⟩
      have h := getUserId_store_entries st
      rw [hgu] at h
      have h2 : st1.entries = st.entries := h
      cases re with
      | ok s msg d =>
          cases s with
          | true => simp [failMsg] at hfe
          | false => simp [journalGetEntries, apiCall, hgu, h2]
      | httpError msg => simp [journalGetEntries, apiCall, hgu, h2]
      | timeout => simp [journalGetEntries, apiCall, hgu, h2]
      | networkError => simp [journalGetEntries, apiCall, hgu, h2]
    · rcases hgu : getUserId st with ⟨st1, uid⟩
      have h := getUserId_store_contacts st
      rw [hgu] at h
      have h2 : st1.contacts = st.contacts := h
      cases rc with
      | ok s msg d =>
          cases s with
          | true => simp [failMsg] at hfc
          | false => simp [contactsGetContacts, apiCall, hgu, h2]
      | httpError msg => simp [contactsGetContacts, apiCall, hgu, h2]
      | timeout => simp [contactsGetContacts, apiCall, hgu, h2]
      | networkError => simp [contactsGetContacts, apiCall, hgu, h2]

/-- Witness for the amended C8: the default id 1 is created on first use, a
persisted id 42 is returned as-is and included in the list-entries request,
the delete request carries only the entry id, the create fallbacks stamp
the resolved id into the written record, and the list fallbacks return the
stored collections. -/
theorem c8_amended_witness :
    getUserId ⟨[], [], none⟩ = (⟨[], [], some "1"⟩, "1") ∧
    getUserId ⟨[], [], some "42"⟩ = (⟨[], [], some "42"⟩, "42") ∧
    (journalGetEntries ⟨[], [], some "42"⟩ .networkError).request =
      ⟨"GET", ["journal", "user", "42"], []⟩ ∧
    (journalDeleteEntry ⟨[], [], some "42"⟩ (.str "7") .networkError).request =
      ⟨"DELETE", ["journal", "entry", "7"], []⟩ ∧
    (journalCreateEntry ⟨[], [], some "42"⟩ ⟨"x", 2, none⟩ 7 .networkError).result =
      .ok ⟨.str (toString (7 : Int)), jsParseInt (getUserId ⟨[], [], some "42"⟩).2, "x", 2,
        (Option.getD none 7 : Int)⟩ ∧
    (contactsAddContact ⟨[], [], some "42"⟩ ⟨"Amy", "a@b.com"⟩ 7 .networkError).result =
      .ok ⟨.str (toString (7 : Int)), jsParseInt (getUserId ⟨[], [], some "42"⟩).2, "Amy",
        "a@b.com", 7⟩ ∧
    (journalGetEntries ⟨[], [], some "42"⟩ .networkError).result = .ok (.localFb []) ∧
    (contactsGetContacts ⟨[], [], some "42"⟩ .networkError).result = .ok (.localFb []) := by
  have h := c8_amended_user_id_usage
  exact ⟨h.1 [] [], h.2.1 [] [] "42" (by decide),
    h.2.2.1 ⟨[], [], some "42"⟩ .networkError,
    (h.2.2.2.2.2.2.1 ⟨[], [], some "42"⟩ (.str "7") .networkError).1,
    h.2.2.2.2.2.2.2.1 ⟨[], [], some "42"⟩ ⟨"x", 2, none⟩ 7 .networkError
      networkErrorMessage rfl,
    h.2.2.2.2.2.2.2.2.1 ⟨[], [], some "42"⟩ ⟨"Amy", "a@b.com"⟩ 7 .networkError
      networkErrorMessage rfl (by decide),
    (h.2.2.2.2.2.2.2.2.2 ⟨[], [], some "42"⟩ .networkError .networkError
      networkErrorMessage networkErrorMessage rfl rfl).1,
    (h.2.2.2.2.2.2.2.2.2 ⟨[], [], some "42"⟩ .networkError .networkError
      networkErrorMessage networkErrorMessage rfl rfl).2⟩

/-- Timestamp-descending comparison on served entries. -/
def servedTsDesc (a b : ServedEntry) : Prop :=
  b.timestamp ≤ a.timestamp

/-- Timestamp-descending comparison on locally stored entries. -/
def clientTsDesc (a b : ClientEntry) : Prop :=
  b.timestamp ≤ a.timestamp

/-- C5 counterexample: on the local fallback path the list is NOT ordered
by timestamp descending for arbitrary insertion timestamps.  Two fallback
creates with timestamps 100 then 50 leave the store in reverse insertion
order [50, 100], and the list-entries fallback returns exactly that
unsorted list. -/
theorem c5_local_fallback_unsorted_cex :
    (journalGetEntries
        (journalCreateEntry
          (journalCreateEntry ⟨[], [], some "1"⟩ ⟨"first", 3, some 100⟩ 1000 .networkError).store
          ⟨"second", 4, some 50⟩ 2000 .networkError).store
        .networkError).result =
      .ok (.localFb [⟨.str "2000", .int 1, "second", 4, 50⟩, ⟨.str "1000", .int 1, "first", 3, 100⟩]) ∧
    ¬ List.Sorted clientTsDesc
      [⟨.str "2000", .int 1, "second", 4, 50⟩, ⟨.str "1000", .int 1, "first", 3, 100⟩] := by
  constructor
  · decide
  · intro h
    have h1 := (List.pairwise_cons.mp h).1 ⟨.str "1000", .int 1, "first", 3, 100⟩ (by simp)
    have h2 : (100 : Int) ≤ 50 := h1
    omega

/-- C5 amended: the server list-entries endpoint returns exactly the
requested user's entries sorted by timestamp descending; the client remote
path serves that response unchanged, but the local fallback path returns
the stored list as-is, which is in reverse insertion order (each fallback
create prepends the new record), so it is timestamp-sorted only when
insertions happen in timestamp order. -/
theorem c5_amended_entry_ordering :
    (∀ (db : ServerDB) (p : String) (uid : Int), jsParseInt p = .int uid →
        (getJournalUser db p).status = 200 ∧
        List.Sorted servedTsDesc (getJournalUser db p).entries ∧
        List.Perm (getJournalUser db p).entries
          ((db.journal.filter (fun e => e.user_id == uid)).map serveEntry)) ∧
    (∀ (st : LocalStore) (r : Remote (List ServedEntry)) (m : String), failMsg r = some m →
        (journalGetEntries st r).result = .ok (.localFb st.entries)) ∧
    (∀ (st : LocalStore) (ed : EntryData) (now : Int) (r : Remote CreateEntryData) (m : String),
        failMsg r = some m →
        (journalCreateEntry st ed now r).store.entries =
          ⟨.str (toString now), jsParseInt (getUserId st).2, ed.entry_text, ed.mood_rating,
            ed.timestamp.getD now⟩ :: st.entries) := by
  refine ⟨?_, ?_, ?_⟩
  · intro db p uid h
    have hs := List.sorted_insertionSort tsDesc (db.journal.filter (fun e => e.user_id == uid))
    refine ⟨by simp [getJournalUser, h], ?_, ?_⟩
    · show List.Sorted servedTsDesc (getJournalUser db p).entries
      simp only [getJournalUser, h]
      exact List.pairwise_map.mpr (hs.imp (fun hab => hab))
    · simp only [getJournalUser, h]
      exact (List.perm_insertionSort tsDesc _).map serveEntry
  · intro st r m hf
    rcases hgu : getUserId st with ⟨st1, uid⟩
    have h := getUserId_store_entries st
    rw [hgu] at h
    have h2 : st1.entries = st.entries := h
    cases r with
    | ok s msg d =>
        cases s with
        | true => simp [failMsg] at hf
        | false => simp [journalGetEntries, apiCall, hgu, h2]
    | httpError msg => simp [journalGetEntries, apiCall, hgu, h2]
    | timeout => simp [journalGetEntries, apiCall, hgu, h2]
    | networkError => simp [journalGetEntries, apiCall, hgu, h2]
  · intro st ed now r m hf
    rcases hgu : getUserId st with ⟨st1, uid⟩
    have h := getUserId_store_entries st
    rw [hgu] at h
    have h2 : st1.entries = st.entries := h
    cases r with
    | ok s msg d =>
        cases s with
        | true => simp [failMsg] at hf
        | false => simp [journalCreateEntry, apiCall, addJournalEntryLocal, hgu, h2]
    | httpError msg => simp [journalCreateEntry, apiCall, addJournalEntryLocal, hgu, h2]
    | timeout => simp [journalCreateEntry, apiCall, addJournalEntryLocal, hgu, h2]
    | networkError => simp [journalCreateEntry, apiCall, addJournalEntryLocal, hgu, h2]

/-- Witness for the amended C5 on a two-row table stored in ascending
timestamp order and on a concrete fallback create. -/
theorem c5_amended_witness :
    (getJournalUser ⟨[⟨1, 1, "a", 3, 100⟩, ⟨2, 1, "b", 4, 200⟩], [], 3, 1⟩ "1").status = 200 ∧
    List.Sorted servedTsDesc
      (getJournalUser ⟨[⟨1, 1, "a", 3, 100⟩, ⟨2, 1, "b", 4, 200⟩], [], 3, 1⟩ "1").entries ∧
    List.Perm (getJournalUser ⟨[⟨1, 1, "a", 3, 100⟩, ⟨2, 1, "b", 4, 200⟩], [], 3, 1⟩ "1").entries
      (([⟨1, 1, "a", 3, 100⟩, ⟨2, 1, "b", 4, 200⟩] : List SJournal).filter
        (fun e => e.user_id == (1 : Int)) |>.map serveEntry) ∧
    (journalGetEntries ⟨[⟨.str "9", .int 1, "x", 2, 9⟩], [], some "1"⟩ .networkError).result =
      .ok (.localFb [⟨.str "9", .int 1, "x", 2, 9⟩]) ∧
    (journalCreateEntry ⟨[], [], some "1"⟩ ⟨"x", 2, some 9⟩ 77 .networkError).store.entries =
      [⟨.str (toString (77 : Int)), jsParseInt (getUserId ⟨[], [], some "1"⟩).2, "x", 2,
        (Option.getD (some 9) 77 : Int)⟩] := by
  have h := c5_amended_entry_ordering
  have h1 := h.1 ⟨[⟨1, 1, "a", 3, 100⟩, ⟨2, 1, "b", 4, 200⟩], [], 3, 1⟩ "1" 1 (by decide)
  exact ⟨h1.1, h1.2.1, h1.2.2,
    h.2.1 ⟨[⟨.str "9", .int 1, "x", 2, 9⟩], [], some "1"⟩ .networkError networkErrorMessage rfl,
    h.2.2 ⟨[], [], some "1"⟩ ⟨"x", 2, some 9⟩ 77 .networkError networkErrorMessage rfl⟩

end MuudHealth
